import Mathlib

/-!
Verification development for the narrative-consistency-checker repository.

The Python sources are shallowly embedded here:
  * `consistency_checker.py` — `verify_claim` (its deterministic prefix) and
    `_fallback_verification`,
  * `master_pipeline.py`    — `_aggregate_decisions`,
  * `novel_ingester.py`     — the three chunkers, `search_character`,
    `_find_character_aliases`,
  * `evidence_retriever.py` — `retrieve_evidence`, `_calculate_evidence_weight`,
    `find_critical_moments`, `_extract_triggers`,
  * `smart_fallback.py`     — `extract_claims_smart`, `smart_vocabulary_generation`,
  * `claim_decomposer.py`   — `decompose` along the pattern-based fallback path.

Python floats are modelled as rationals (ℚ); Python dictionaries become
structures carrying exactly the keys the embedded functions read; Python string
containment (`in`), `str.lower`, `str.strip`, `str.split` and the word-boundary
regex searches are embedded below as executable functions on `String`.
-/

/-! ## String and list helpers (Python primitives) -/

/-- Python `needle in hay` on lists of characters: `needle` occurs contiguously
inside `hay` (the empty needle always occurs). -/
def listPrefixOf : List Char → List Char → Bool
  | [], _ => true
  | _ :: _, [] => false
  | a :: n, b :: h => a = b && listPrefixOf n h

/-- Occurrence of `n` as a contiguous sublist of `h`. -/
def listInfixOf (n : List Char) : List Char → Bool
  | [] => listPrefixOf n []
  | h@(_ :: t) => listPrefixOf n h || listInfixOf n t

/-- Python `needle in hay` for strings. -/
def pyIn (needle hay : String) : Bool := listInfixOf needle.data hay.data

/-- Python `hay.startswith(needle)` for strings. -/
def pyStartsWith (hay needle : String) : Bool := listPrefixOf needle.data hay.data

/-- Python `str.lower()` (the repository only processes ASCII text, where
`Char.toLower` agrees with Python). -/
def pyLower (s : String) : String := String.mk (s.data.map Char.toLower)

/-- Python `str.strip()` with no argument: remove leading and trailing
whitespace. -/
def pyStrip (s : String) : String :=
  String.mk (((s.data.dropWhile Char.isWhitespace).reverse.dropWhile Char.isWhitespace).reverse)

/-- Split a character list at every character satisfying `p`, keeping empty
segments (the semantics of `re.split` over a single-character class). -/
def splitIfAux (p : Char → Bool) : List Char → List Char → List String
  | [], cur => [String.mk cur.reverse]
  | c :: rest, cur =>
      if p c then String.mk cur.reverse :: splitIfAux p rest []
      else splitIfAux p rest (c :: cur)

/-- Split a string at every character satisfying `p`, keeping empty
segments. -/
def pySplitIf (p : Char → Bool) (s : String) : List String := splitIfAux p s.data []

/-- Python `str.split()` with no argument: split on whitespace, dropping
empty pieces. -/
def pySplitWhitespace (s : String) : List String :=
  (pySplitIf Char.isWhitespace s).filter (fun w => w ≠ "")

/-- Fuel-indexed helper for `pyReplace`; the fuel bounds the number of
consumed characters, so the length of the scanned list always suffices. -/
def replaceFuel (pat repl : List Char) : Nat → List Char → List Char
  | 0, h => h
  | _ + 1, [] => []
  | fuel + 1, h@(c :: t) =>
      if pat ≠ [] ∧ listPrefixOf pat h then
        repl ++ replaceFuel pat repl fuel (h.drop pat.length)
      else c :: replaceFuel pat repl fuel t

/-- Python `s.replace(pattern, repl)` (left-to-right, non-overlapping); the
empty pattern leaves the string unchanged, which is all the sources need. -/
def pyReplace (s pattern repl : String) : String :=
  String.mk (replaceFuel pattern.data repl.data s.data.length s.data)

/-- A regex word character (`\w`): letters, digits or underscore
(the repository only processes ASCII text). -/
def isWordChar (c : Char) : Bool := c.isAlphanum || c = '_'

/-- Helper for `wordSearch`: try to match `n` at the head of `h`, requiring a
word boundary on both sides; `prevOk` records that the previous character was
not a word character (or that we are at the start of the string). -/
def wordMatchAt (n h : List Char) (prevOk : Bool) : Bool :=
  prevOk && listPrefixOf n h &&
    (match h.drop n.length with
     | [] => true
     | c :: _ => !isWordChar c)

/-- Scan `h` for a word-boundary occurrence of `n`. -/
def wordSearchAux (n : List Char) : List Char → Bool → Bool
  | [], prevOk => wordMatchAt n [] prevOk
  | h@(c :: t), prevOk => wordMatchAt n h prevOk || wordSearchAux n t (!isWordChar c)

/-- Python `re.search(rf"\b{needle}\b", hay)` as a Boolean, for needles that
begin and end with word characters (every lexicon entry in the sources does). -/
def wordSearch (needle hay : String) : Bool := wordSearchAux needle.data hay.data true

/-- Deduplicate keeping the first occurrence of each element (models Python
`list(dict.fromkeys(...))`; also used for `list(set(...))` whose iteration
order is irrelevant to every property proved below). -/
def uniqFirst (l : List String) : List String :=
  l.foldl (fun acc x => if x ∈ acc then acc else acc ++ [x]) []

/-- Descending insertion sort by a rational key (models Python
`list.sort(key=..., reverse=True)`; tie order is irrelevant to every property
proved below). -/
def insertDescQ {α : Type} (f : α → ℚ) (a : α) : List α → List α
  | [] => [a]
  | b :: bs => if f b < f a then a :: b :: bs else b :: insertDescQ f a bs

/-- Sort a list in descending order of the key `f`. -/
def sortByDescQ {α : Type} (f : α → ℚ) : List α → List α
  | [] => []
  | x :: xs => insertDescQ f x (sortByDescQ f xs)

/-- Python `max` over a list of rationals (0 on the empty list, which the
sources never reach). -/
def qmax : List ℚ → ℚ
  | [] => 0
  | x :: xs => xs.foldl max x

/-- Python `max(iterable, key=f)`: the element with the largest key, the
earliest one on ties (`max` only replaces its candidate on a strictly larger
key); `none` on an empty list. -/
def pyMaxBy {α : Type} (f : α → ℚ) : List α → Option α
  | [] => none
  | x :: xs => some (xs.foldl (fun a b => if f a < f b then b else a) x)

/-! ## `consistency_checker.py` — data model -/

/-- The slice of a claim dictionary read by `_fallback_verification`
(`claim.get('claim_id', '')`). -/
structure ClaimInfo where
  claim_id : String
deriving Repr, DecidableEq

/-- One evidence passage as consumed by `_fallback_verification`: only
`e.get('adjusted_score', 0)` is read, and critical-moment records carry no
`adjusted_score` key, hence the `Option`. -/
structure EvidenceRecord where
  adjusted_score : Option ℚ
deriving Repr, DecidableEq

/-- The evidence dictionary handed to the verifier: `supporting` and
`contradicting` lists (the `neutral` list is never read by the verifier). -/
structure EvidenceSet where
  supporting : List EvidenceRecord
  contradicting : List EvidenceRecord
deriving Repr, DecidableEq

/-- The verification result dictionary: binary judgment (`consistent` is the
Python int 0/1), a confidence and a rationale, plus the `key_passages` list. -/
structure Verification where
  consistent : Nat
  confidence : ℚ
  rationale : String
  key_passages : List String
deriving Repr, DecidableEq

/-! ## `consistency_checker.py` — `_fallback_verification` -/

/-- Sum of `e.get('adjusted_score', 0)` over the first five evidence items
(`evidence.get('supporting', [])[:5]`). -/
def sumTop5 (l : List EvidenceRecord) : ℚ :=
  ((l.take 5).map (fun e => e.adjusted_score.getD 0)).sum

/-- The contradiction weighting factor of the fallback heuristic
(`net_score = support_score - (contra_score * 2.5)`). -/
def contraWeight : ℚ := 2.5

/-- The net score of the fallback heuristic. -/
def netScore (sup con : List EvidenceRecord) : ℚ :=
  sumTop5 sup - sumTop5 con * contraWeight

/-- The soft-claim test of `_fallback_verification`: claim ids that default to
consistent when no evidence is found. -/
def isSoftClaim (claim_id : String) : Bool :=
  pyStartsWith claim_id "event_death" ||
  pyStartsWith claim_id "event_birth" ||
  pyStartsWith claim_id "relationship_" ||
  pyStartsWith claim_id "event_education" ||
  claim_id == "backstory_summary"

/-- `ConsistencyChecker._fallback_verification`: the deterministic scoring
heuristic used when the model-based judge is skipped or fails. -/
def fallback_verification (claim : ClaimInfo) (evidence : EvidenceSet) : Verification :=
  let support_count := evidence.supporting.length
  let contra_count := evidence.contradicting.length
  let support_score := sumTop5 evidence.supporting
  let contra_score := sumTop5 evidence.contradicting
  let claim_id := claim.claim_id
  if support_count = 0 ∧ contra_count = 0 then
    if isSoftClaim claim_id then
      { consistent := 1, confidence := 0.5,
        rationale := "Unverifiable claim with no contradicting evidence - defaulting to consistent",
        key_passages := [] }
    else
      { consistent := 0, confidence := 0.6,
        rationale := "No evidence found for specific claim - may be fabricated",
        key_passages := [] }
  else
    let net_score := netScore evidence.supporting evidence.contradicting
    if 0 < support_count ∧ contra_count = 0 then
      { consistent := 1,
        confidence := min 0.9 (0.5 + (support_count : ℚ) * 0.1),
        rationale := toString support_count ++ " supporting passages found, no contradictions",
        key_passages := [] }
    else if 0 < contra_count ∧ support_count = 0 then
      { consistent := 0,
        confidence := min 0.9 (0.5 + (contra_count : ℚ) * 0.1),
        rationale := toString contra_count ++ " contradicting passages found, no support",
        key_passages := [] }
    else if 3 ≤ contra_count then
      if 0.3 * support_score < contra_score then
        { consistent := 0, confidence := 0.7,
          rationale := "Multiple contradictions (" ++ toString contra_count ++ ") found despite supporting evidence",
          key_passages := [] }
      else
        { consistent := 1, confidence := 0.6,
          rationale := "Supporting evidence outweighs contradictions",
          key_passages := [] }
    else if 2 < net_score then
      { consistent := 1, confidence := min (|net_score| / 5) 0.9,
        rationale := "Supporting evidence outweighs contradictions",
        key_passages := [] }
    else if net_score < -2 then
      { consistent := 0, confidence := min (|net_score| / 5) 0.9,
        rationale := "Clear contradictions found in narrative",
        key_passages := [] }
    else
      { consistent := 1, confidence := 0.55,
        rationale := "Mixed evidence - slight lean toward consistent",
        key_passages := [] }

/-! ## `consistency_checker.py` — `verify_claim` (deterministic prefix) -/

/-- Outcome of the deterministic prefix of `verify_claim`: either a result is
produced before any model call, or control reaches the model-based judging
path (cache lookup, prompt construction and the LLM call, which are external
and not modelled). -/
inductive VerifyOutcome where
  | result (v : Verification)
  | llm
deriving Repr, DecidableEq

/-- `ConsistencyChecker.verify_claim` up to the first model interaction.
`skipLLM` is the `SKIP_LLM_USE_FALLBACK` configuration flag: when set, the
verifier immediately delegates to the fallback heuristic; otherwise an empty
evidence set is answered inline with judgment 0 and confidence 0.5 before the
model is ever consulted. -/
def verify_claim (skipLLM : Bool) (claim : ClaimInfo) (evidence : EvidenceSet) : VerifyOutcome :=
  if skipLLM then
    .result (fallback_verification claim evidence)
  else if evidence.supporting = [] ∧ evidence.contradicting = [] then
    .result { consistent := 0, confidence := 0.5,
              rationale := "No evidence found in novel for this claim",
              key_passages := [] }
  else
    .llm

/-- Projection used to observe the judgment of a deterministic outcome. -/
def outcomeConsistent (o : VerifyOutcome) : Option Nat :=
  match o with
  | .result v => some v.consistent
  | .llm => none

/-! ## `master_pipeline.py` — `_aggregate_decisions` -/

/-- One entry of the `claim_verifications` list aggregated by the master
pipeline; `_aggregate_decisions` reads only its `verification` field (the
`claim` and `evidence` fields of the Python dictionary are never accessed by
the aggregator). -/
structure ClaimVerification where
  verification : Verification
deriving Repr, DecidableEq

/-- The final per-backstory verdict dictionary. -/
structure AggregateVerdict where
  consistent : Nat
  confidence : ℚ
  rationale : String
deriving Repr, DecidableEq

/-- The strong contradictions of `_aggregate_decisions`:
`not cv['verification']['consistent'] and cv['verification']['confidence'] > 0.85`. -/
def strongContras (vs : List ClaimVerification) : List ClaimVerification :=
  vs.filter (fun cv => cv.verification.consistent = 0 ∧ (0.85 : ℚ) < cv.verification.confidence)

/-- The majority-vote tail of `_aggregate_decisions` (lines 201-244), reached
when neither contradiction override fires. -/
def aggregateMajority (vs strong_contras : List ClaimVerification)
    (total_confidence : ℚ) (support_count contradiction_count : Nat) : AggregateVerdict :=
  let claims_with_support := vs.filter (fun cv => cv.verification.consistent = 1)
  let claims_with_contra := vs.filter (fun cv => cv.verification.consistent = 0)
  let total_claims := vs.length
  let avg_confidence :=
    if 0 < total_claims then
      (vs.map (fun cv => cv.verification.confidence)).sum / (total_claims : ℚ)
    else (0.5 : ℚ)
  if claims_with_contra.length ≤ claims_with_support.length ∧ strong_contras.length = 0 then
    { consistent := 1, confidence := avg_confidence,
      rationale := toString claims_with_support.length ++ "/" ++ toString total_claims
                     ++ " claims supported by evidence" }
  else if claims_with_support.length < claims_with_contra.length then
    { consistent := 0, confidence := avg_confidence,
      rationale := toString claims_with_contra.length ++ "/" ++ toString total_claims
                     ++ " claims contradicted" }
  else
    let confidence :=
      if 0 < total_claims then total_confidence / (total_claims : ℚ) else (0.5 : ℚ)
    if contradiction_count < support_count then
      { consistent := 1, confidence := confidence,
        rationale := toString support_count ++ "/" ++ toString total_claims
                       ++ " claims supported by evidence" }
    else
      { consistent := 0, confidence := confidence,
        rationale := toString contradiction_count ++ "/" ++ toString total_claims
                       ++ " claims contradicted" }

/-- `MasterPipeline._aggregate_decisions`: combine the per-claim verifications
into one verdict.  The Python local `strong_evidence` (lines 202-203) is
computed but never used and is omitted; `support_count`/`contradiction_count`
use Python truthiness of the 0/1 `consistent` value. -/
def aggregate_decisions (vs : List ClaimVerification) : AggregateVerdict :=
  let total_confidence := (vs.map (fun cv => cv.verification.confidence)).sum
  let support_count := (vs.filter (fun cv => cv.verification.consistent ≠ 0)).length
  let contradiction_count := (vs.filter (fun cv => cv.verification.consistent = 0)).length
  let contradictions := vs.filter (fun cv => cv.verification.consistent = 0)
  let strongest_contra := pyMaxBy (fun cv => cv.verification.confidence) contradictions
  let strong_contras := strongContras vs
  if 2 ≤ strong_contras.length then
    { consistent := 0,
      confidence := qmax (strong_contras.map (fun cv => cv.verification.confidence)),
      rationale := "Multiple strong contradictions (" ++ toString strong_contras.length
                     ++ ") found in claims" }
  else
    match strongest_contra with
    | some sc =>
        if (0.9 : ℚ) < sc.verification.confidence then
          { consistent := 0,
            confidence := sc.verification.confidence,
            rationale := "Strong contradiction found: " ++ sc.verification.rationale.take 150 }
        else
          aggregateMajority vs strong_contras total_confidence support_count contradiction_count
    | none =>
        aggregateMajority vs strong_contras total_confidence support_count contradiction_count

/-! ## `novel_ingester.py` — chunking -/

/-- One chunk of novel text.  The fields after `type` are written later by
`_process_chunk` (character annotation and scene typing), so they are optional
or default-initialised at chunking time: `search_character` reads them with
`chunk.get('scene_type', 'unknown')` and `chunk['characters']`. -/
structure Chunk where
  id : String
  text : String
  start_pos : Nat
  end_pos : Nat
  type : String
  scene_type : Option String := none
  characters : List String := []
deriving Repr, DecidableEq

/-- Python `raw[s:e]` character slicing. -/
def sliceStr (raw : List Char) (s e : Nat) : String :=
  String.mk ((raw.drop s).take (e - s))

/-- Loop body of `NovelIngester._chunk_by_chapter`: `pairs` enumerates the
start offsets of the chapter-header matches (`re.finditer` results), `start`
is the running `start_pos`, `total` the total number of matches (used by the
id of the final chunk).  Only chunks whose stripped text is longer than 500
characters are kept. -/
def chapterChunksAux (raw : List Char) (pairs : List (Nat × Nat)) (start total : Nat) :
    List Chunk :=
  match pairs with
  | [] =>
      let t := pyStrip (sliceStr raw start raw.length)
      if 500 < t.length then
        [{ id := "ch_" ++ toString total, text := t, start_pos := start,
           end_pos := raw.length, type := "chapter" }]
      else []
  | (i, p) :: rest =>
      let t := pyStrip (sliceStr raw start p)
      let tail := chapterChunksAux raw rest p total
      if 500 < t.length then
        { id := "ch_" ++ toString i, text := t, start_pos := start,
          end_pos := p, type := "chapter" } :: tail
      else tail

/-- `NovelIngester._chunk_by_chapter` given the start offsets of the
chapter-header regex matches.  (The header regex itself is an external
lexical matter; the offsets it produces are taken as input.  The
fewer-than-five-markers fallback to scene chunking in the source is a
strategy-selection step handled by the caller.) -/
def chunk_by_chapter (raw : String) (matchStarts : List Nat) : List Chunk :=
  chapterChunksAux raw.data matchStarts.enum 0 matchStarts.length

/-- Loop body of `NovelIngester._chunk_by_scene` over the segments produced by
`re.split(r"\n\s*\n", raw_text)`: a segment is kept when its raw length
exceeds 300 characters, and the stored text is the stripped segment; the
running position advances by the segment length plus 2. -/
def sceneChunksAux (segs : List String) (i pos : Nat) : List Chunk :=
  match segs with
  | [] => []
  | s :: rest =>
      let tail := sceneChunksAux rest (i + 1) (pos + s.length + 2)
      if 300 < s.length then
        { id := "sc_" ++ toString i, text := pyStrip s, start_pos := pos,
          end_pos := pos + s.length, type := "scene" } :: tail
      else tail

/-- `NovelIngester._chunk_by_scene` given the blank-line split of the raw
text (the `re.split(r"\n\s*\n", ...)` result is taken as input). -/
def chunk_by_scene (segs : List String) : List Chunk :=
  sceneChunksAux segs 0 0

/-- `NovelIngester._chunk_fixed_size` with the default window of 1500 words:
every window of the whitespace-split word list becomes a chunk; no minimum
length is enforced.  `o` is the running word offset (`i` in the Python
`range(0, len(words), target_size)` loop). -/
def fixedChunksAux : Nat → List String → Nat → List Chunk
  | 0, _, _ => []
  | _ + 1, [], _ => []
  | fuel + 1, w :: rest, o =>
      let cw := (w :: rest).take 1500
      { id := "fk_" ++ toString (o / 1500), text := String.intercalate " " cw,
        start_pos := o, end_pos := o + cw.length, type := "fixed" }
        :: fixedChunksAux fuel ((w :: rest).drop 1500) (o + 1500)

/-- `NovelIngester._chunk_fixed_size` applied to a raw text.  (The word-list
length bounds the number of windows, so it is a sufficient fuel; each loop
iteration consumes 1500 words.) -/
def chunk_fixed_size (raw : String) : List Chunk :=
  fixedChunksAux (pySplitWhitespace raw).length (pySplitWhitespace raw) 0

/-! ## `novel_ingester.py` — character search -/

/-- The ingester state read by `search_character` and the evidence retriever:
the chunk list and the reverse index `character_positions` mapping a detected
character name to the indices of the chunks mentioning it (built by
`_process_chunk`; modelled as an association list). -/
structure NovelIngesterState where
  chunks : List Chunk
  character_positions : List (String × List Nat)
deriving Repr, DecidableEq

/-- The claim-vocabulary dictionary passed to `search_character` and
`retrieve_evidence` (in the master pipeline it is
`{'positive': ..., 'negative': ..., 'patterns': ...}`, without a
`character_name` key — hence the optional field read by
`_calculate_evidence_weight` via `claim.get('character_name')`). -/
structure VocabDict where
  positive : List String
  negative : List String
  patterns : List String
  character_name : Option String := none
deriving Repr, DecidableEq

/-- `NovelIngester._find_character_aliases`: the primary name, the first and
last name when the name has several parts, and common title + last-name
combinations; deduplicated (`list(set(...))`, whose iteration order is
irrelevant to every property proved below). -/
def find_character_aliases (primary : String) : List String :=
  let parts := pySplitWhitespace primary
  let aliases :=
    if 1 < parts.length then
      let last := parts.getLastD ""
      [primary, parts.headD "", last,
       "Mr. " ++ last, "Mrs. " ++ last, "Miss " ++ last,
       "Dr. " ++ last, "Lord " ++ last, "Lady " ++ last]
    else
      [primary, "Mr. " ++ primary, "Mrs. " ++ primary, "Miss " ++ primary]
  uniqFirst aliases

/-- One match record produced by `search_character` (the `adjusted_score` key
is set equal to `score` there "for compatibility"). -/
structure Match where
  chunk_id : String
  text : String
  score : ℚ
  adjusted_score : ℚ
  matched_terms : List String
  scene_type : String
  characters_in_scene : List String
deriving Repr, DecidableEq

/-- The raw vocabulary scoring of one chunk inside `search_character`:
+1 per positive term found (case-insensitive substring), −2 per
anti-vocabulary term found (appended to `matched_terms` with a
`CONTRADICTION: ` prefix), +1.5 per syntactic pattern whose significant words
all occur (case-sensitive) in the text. -/
def scoreChunkRaw (character : String) (vocab : VocabDict) (text : String) :
    ℚ × List String :=
  let tl := pyLower text
  let s1 := vocab.positive.foldl
    (fun acc term => if pyIn (pyLower term) tl then (acc.1 + 1, acc.2 ++ [term]) else acc)
    ((0 : ℚ), ([] : List String))
  let s2 := vocab.negative.foldl
    (fun acc term =>
      if pyIn (pyLower term) tl then (acc.1 - 2, acc.2 ++ ["CONTRADICTION: " ++ term])
      else acc)
    s1
  let s3 := vocab.patterns.foldl
    (fun acc pat =>
      let pattern_words := pySplitWhitespace (pyReplace pat character "")
      if pattern_words.all
          (fun w => w ∈ ["+", "[", "]", "verb", "adjective"] || pyIn w text) then
        acc + 1.5
      else acc)
    s2.1
  (s3, s2.2)

/-- Per-chunk part of `search_character`: a positive score with fewer than two
matched terms is down-weighted to the weak-evidence value 0.5, and only
non-zero scores produce a match record. -/
def scoreChunk (character : String) (vocab : VocabDict) (chunk : Chunk) : Option Match :=
  let raw := scoreChunkRaw character vocab chunk.text
  let score := if 0 < raw.1 ∧ raw.2.length < 2 then (0.5 : ℚ) else raw.1
  if score ≠ 0 then
    some { chunk_id := chunk.id, text := chunk.text, score := score,
           adjusted_score := score, matched_terms := raw.2,
           scene_type := chunk.scene_type.getD "unknown",
           characters_in_scene := chunk.characters }
  else none

/-- `NovelIngester.search_character`: scan the chunks indexed for any alias of
the character (the Python `set` of chunk indices is modelled as the ascending
list of indices; iteration order does not affect any property proved below),
score each against the claim vocabulary, sort descending by score and keep
the top 20. -/
def search_character (ing : NovelIngesterState) (character_name : String)
    (claim_vocab : VocabDict) : List Match :=
  let aliases := find_character_aliases character_name
  let chunk_indices := (List.range ing.chunks.length).filter
    (fun i => aliases.any (fun a => i ∈ ((ing.character_positions.lookup a).getD [])))
  let matchList := chunk_indices.filterMap
    (fun i => (ing.chunks.get? i).bind (scoreChunk character_name claim_vocab))
  (sortByDescQ (fun m => m.score) matchList).take 20

/-! ## `evidence_retriever.py` -/

/-- The per-claim data read by `find_critical_moments` and
`_extract_triggers`: the claim text, its type and its positive search
vocabulary. -/
structure CMClaim where
  claim_text : String
  claim_type : String
  search_vocabulary : List String
deriving Repr, DecidableEq

/-- One evidence item built by `retrieve_evidence`: the match record with its
scene-adjusted score and a ranking weight. -/
structure EvidenceItem where
  chunk_id : String
  text : String
  score : ℚ
  adjusted_score : ℚ
  matched_terms : List String
  scene_type : String
  characters_in_scene : List String
  weight : ℚ
deriving Repr, DecidableEq

/-- The classified evidence dictionary returned by `retrieve_evidence`
(neutral matches are appended unmodified, without a weight key). -/
structure RetrievedEvidence where
  supporting : List EvidenceItem
  contradicting : List EvidenceItem
  neutral : List Match
deriving Repr, DecidableEq

/-- The scene-type multipliers of `EvidenceRetriever.__init__`. -/
def sceneWeightsRetriever (scene_type : String) : ℚ :=
  if scene_type = "action" then 1.5
  else if scene_type = "dialogue" then 1.0
  else if scene_type = "introspection" then 1.2
  else 1.0

/-- `EvidenceRetriever._calculate_evidence_weight`: score magnitude, scene
bonus, named-character bonus, early-chapter bonus and a large negation bonus.
(The `match` argument is the original `search_character` record, whose
`adjusted_score` still equals the raw score.) -/
def calculate_evidence_weight (m : Match) (claim : VocabDict) : ℚ :=
  let w1 := |m.adjusted_score| * 0.5
  let w2 := w1 + (if m.scene_type = "action" then (2.0 : ℚ)
                  else if m.scene_type = "introspection" then 1.5
                  else if m.scene_type = "dialogue" then 1.0
                  else 0.5)
  let w3 := w2 +
    (match claim.character_name with
     | some n => if m.characters_in_scene ≠ [] ∧ n ≠ "" ∧ n ∈ m.characters_in_scene
                 then (1 : ℚ) else 0
     | none => 0)
  let w4 := w3 + (if pyIn "early" m.chunk_id then (0.5 : ℚ) else 0)
  let negation := ["not", "never", "no longer", "contrary to"].any
    (fun neg => pyIn neg (pyLower m.text))
  w4 + (if negation then (3.0 : ℚ) else 0)

/-- The character-mention gate applied to every match inside
`retrieve_evidence`: the lower-cased full name occurs in the text, or some
name part longer than three characters does. -/
def charMentioned (character text : String) : Bool :=
  let char_lower := pyLower character
  let text_lower := pyLower text
  pyIn char_lower text_lower ||
    (pySplitWhitespace char_lower).any (fun part => 3 < part.length && pyIn part text_lower)

/-- Whether a match was re-classified as a contradiction
(`any('CONTRADICTION' in term for term in match['matched_terms'])`). -/
def hasContradictionTerm (m : Match) : Bool :=
  m.matched_terms.any (fun term => pyIn "CONTRADICTION" term)

/-- Build the evidence item for a retained match. -/
def mkEvidenceItem (m : Match) (adjusted : ℚ) (claim : VocabDict) : EvidenceItem :=
  { chunk_id := m.chunk_id, text := m.text, score := m.score,
    adjusted_score := adjusted, matched_terms := m.matched_terms,
    scene_type := m.scene_type, characters_in_scene := m.characters_in_scene,
    weight := calculate_evidence_weight m claim }

/-- `EvidenceRetriever.retrieve_evidence`: search, drop matches that do not
mention the character, scene-adjust the score, classify into
supporting / contradicting / neutral and sort each class by weight
(the Python append loop is expressed as filters over the match list,
preserving order and content). -/
def retrieve_evidence (ing : NovelIngesterState) (character : String)
    (claim : VocabDict) : RetrievedEvidence :=
  let all_matches := search_character ing character claim
  let kept := all_matches.filter (fun m => charMentioned character m.text)
  let adjustedOf := fun (m : Match) => m.score * sceneWeightsRetriever m.scene_type
  let supporting := (kept.filter
      (fun m => 0 < adjustedOf m ∧ ¬ hasContradictionTerm m = true)).map
    (fun m => mkEvidenceItem m (adjustedOf m) claim)
  let contradicting := (kept.filter
      (fun m => ¬ (0 < adjustedOf m ∧ ¬ hasContradictionTerm m = true) ∧
                (adjustedOf m < 0 ∨ hasContradictionTerm m = true))).map
    (fun m => mkEvidenceItem m (adjustedOf m) claim)
  let neutral := kept.filter
    (fun m => ¬ (0 < adjustedOf m ∧ ¬ hasContradictionTerm m = true) ∧
              ¬ (adjustedOf m < 0 ∨ hasContradictionTerm m = true))
  { supporting := sortByDescQ (fun it => it.weight) supporting,
    contradicting := sortByDescQ (fun it => it.weight) contradicting,
    neutral := sortByDescQ (fun _ => (0 : ℚ)) neutral }

/-- First word-character run following the first occurrence of `"fear of "`
in `s`, when that run is non-empty: Python `re.search(r"fear of (\w+)", s)`. -/
def fearObjectAux : List Char → Option String
  | [] => none
  | h@(_ :: t) =>
      if listPrefixOf "fear of ".data h then
        let run := ((h.drop 8).takeWhile isWordChar)
        if run ≠ [] then some (String.mk run) else fearObjectAux t
      else fearObjectAux t

/-- Python `re.search(r"fear of (\w+)", claim_text)` group 1. -/
def fearObject (s : String) : Option String := fearObjectAux s.data

/-- The situational trigger lexicon of `EvidenceRetriever._extract_triggers`. -/
def triggerMap : List (String × List String) :=
  [("fear", ["danger", "threat", "scared", "frightened"]),
   ("brave", ["danger", "risk", "battle", "fight", "confront"]),
   ("water", ["water", "river", "sea", "ocean", "drown"]),
   ("height", ["height", "cliff", "mountain", "high", "fall"]),
   ("social", ["talk", "speak", "meet", "people", "crowd"])]

/-- `EvidenceRetriever._extract_triggers`: the feared object plus its mapped
keywords for fear claims, otherwise every keyword list whose concept occurs in
the claim text, capped at five triggers. -/
def extract_triggers (claim : CMClaim) : List String :=
  let claim_text := pyLower claim.claim_text
  let fromFear : Option (List String) :=
    if claim.claim_type = "fear" then
      match fearObject claim_text with
      | some obj => some (obj :: ((triggerMap.lookup obj).getD []))
      | none => none
    else none
  match fromFear with
  | some ts => ts
  | none =>
      (triggerMap.foldl
        (fun acc ck => if pyIn ck.1 claim_text then acc ++ ck.2 else acc) []).take 5

/-- One critical-moment record: negative evidence for a chunk where the
claim trigger and the character co-occur but the claim vocabulary is absent. -/
structure CriticalMoment where
  chunk_id : String
  text : String
  trigger : String
  absent_behavior : String
  weight : ℚ
deriving Repr, DecidableEq

/-- `EvidenceRetriever.find_critical_moments`: scan every chunk; where a
trigger and the character are both present but no positive search-vocabulary
term occurs, emit a high-weight negative-evidence record. -/
def find_critical_moments (ing : NovelIngesterState) (character : String)
    (claim : CMClaim) : List CriticalMoment :=
  let triggers := extract_triggers claim
  if triggers = [] then []
  else
    ing.chunks.filterMap (fun chunk =>
      let text_lower := pyLower chunk.text
      let trigger_present := triggers.any (fun trigger => pyIn trigger text_lower)
      let char_present := pyIn (pyLower character) text_lower
      if trigger_present ∧ char_present then
        let has_positive_marker := claim.search_vocabulary.any
          (fun term => pyIn (pyLower term) text_lower)
        if ¬ has_positive_marker then
          some { chunk_id := chunk.id, text := chunk.text,
                 trigger := triggers.headD "", absent_behavior := claim.claim_text,
                 weight := 2.5 }
        else none
      else none)

/-! ## `smart_fallback.py` — pattern-based claim extraction -/

/-- A claim dictionary produced by `SmartFallback.extract_claims_smart`.  The
optional fields mirror the keys only some claim kinds carry.  (The `temporal`
annotation attached to event claims is extracted but never read anywhere
downstream, and is not modelled.) -/
structure SFClaim where
  claim_id : String
  claim_text : String
  claim_type : String
  importance : String
  detected_trait : Option String := none
  detected_emotion : Option String := none
  event_type : Option String := none
  relationship_type : Option String := none
deriving Repr, DecidableEq

/-- Positive trait lexicon of `SmartFallback.__init__`. -/
def traitsPositive : List String :=
  ["brave", "courageous", "kind", "generous", "smart", "intelligent",
   "honest", "loyal", "confident", "optimistic", "humble", "patient"]

/-- Negative trait lexicon of `SmartFallback.__init__`. -/
def traitsNegative : List String :=
  ["cowardly", "cruel", "mean", "selfish", "foolish", "stupid",
   "deceitful", "dishonest", "arrogant", "pessimistic", "proud", "impatient"]

/-- Event-indicator lexicon of `SmartFallback.__init__`, in insertion order. -/
def eventsLexicon : List (String × List String) :=
  [("death", ["died", "killed", "murdered", "passed away", "death", "funeral", "grave"]),
   ("birth", ["born", "birth", "came into the world", "entered the world"]),
   ("orphaned", ["orphan", "lost parents", "parents died", "alone", "abandoned"]),
   ("marriage", ["married", "wedding", "wed", "spouse", "husband", "wife"]),
   ("arrest", ["arrested", "imprisoned", "jailed", "captured", "detained", "sentenced"]),
   ("education", ["studied", "learned", "trained", "taught", "educated", "school"]),
   ("injury", ["injured", "wounded", "hurt", "accident", "crash", "struck"]),
   ("conflict", ["argued", "fought", "disagreed", "conflict", "dispute", "quarrel"])]

/-- Relationship terms of `SmartFallback.__init__`. -/
def relationshipTerms : List String :=
  ["father", "mother", "parent", "son", "daughter", "brother",
   "sister", "family", "relative", "friend", "mentor"]

/-- Emotional-state words of `_extract_trait_claim`. -/
def emotionWords : List String :=
  ["fear", "afraid", "scared", "worried", "anxious", "happy", "sad",
   "angry", "disappointed", "hopeful", "confident"]

/-- Generic state/action verbs of `extract_claims_smart` (matched as plain
substrings, not word-bounded). -/
def actionVerbs : List String :=
  ["was", "had", "became", "knew", "felt", "saw", "met", "found",
   "made", "took", "gave", "lost", "won", "joined", "left", "started",
   "ended", "began", "finished", "received", "sent", "arrived", "departed",
   "rescued", "saved", "helped", "fought", "discovered", "learned", "taught",
   "created", "built", "destroyed", "escaped", "captured", "freed"]

/-- The apostrophe character, used by `_format_claim` for the possessive form. -/
def apos : String := String.mk [Char.ofNat 39]

/-- `SmartFallback._format_claim`: prepend the character name (possessively
when a pronoun occurs in the sentence) unless it already appears. -/
def format_claim (sent char_name : String) : String :=
  let sent := pyStrip sent
  if ¬ pyIn (pyLower char_name) (pyLower sent) then
    if ["his", "her", "their", "he", "she", "they"].any
        (fun pronoun => pyIn pronoun (pyLower sent)) then
      char_name ++ apos ++ "s " ++ sent
    else
      char_name ++ " " ++ sent
  else sent

/-- `SmartFallback._extract_trait_claim`: first matching trait word, else
first matching emotion word. -/
def extract_trait_claim (sent sent_lower char_name : String) : Option SFClaim :=
  match (traitsPositive ++ traitsNegative).find? (fun trait => wordSearch trait sent_lower) with
  | some trait =>
      some { claim_id := "trait_" ++ trait, claim_text := format_claim sent char_name,
             claim_type := "trait", importance := "high", detected_trait := some trait }
  | none =>
      match emotionWords.find? (fun emotion => wordSearch emotion sent_lower) with
      | some emotion =>
          some { claim_id := "emotion_" ++ emotion,
                 claim_text := format_claim sent char_name,
                 claim_type := if emotion ∈ ["fear", "afraid", "scared"] then "fear" else "trait",
                 importance := "high", detected_emotion := some emotion }
      | none => none

/-- `SmartFallback._extract_event_claim`: first event type one of whose
keywords occurs (word-bounded) in the sentence. -/
def extract_event_claim (sent sent_lower char_name : String) : Option SFClaim :=
  (eventsLexicon.findSome? (fun ek =>
    if ek.2.any (fun keyword => wordSearch keyword sent_lower) then some ek.1 else none)).map
  (fun event_type =>
    { claim_id := "event_" ++ event_type, claim_text := format_claim sent char_name,
      claim_type := "event", importance := "high", event_type := some event_type })

/-- `SmartFallback._extract_relationship_claim`. -/
def extract_relationship_claim (sent sent_lower char_name : String) : Option SFClaim :=
  (relationshipTerms.find? (fun rel => wordSearch rel sent_lower)).map
  (fun rel =>
    { claim_id := "relationship_" ++ rel, claim_text := format_claim sent char_name,
      claim_type := "relationship", importance := "medium", relationship_type := some rel })

/-- `SmartFallback._deduplicate`: drop claims whose lower-cased stripped text
was already seen, keeping the first occurrence. -/
def deduplicateClaims (claims : List SFClaim) : List SFClaim :=
  (claims.foldl
    (fun acc claim =>
      let key := pyStrip (pyLower claim.claim_text)
      if key ∈ acc.2 then acc else (acc.1 ++ [claim], acc.2 ++ [key]))
    (([] : List SFClaim), ([] : List String))).1

/-- Per-sentence step of the `extract_claims_smart` loop; `claims` is the
accumulator (its length names generic action claims). -/
def extractFromSentence (char_name : String) (claims : List SFClaim) (s : String) :
    List SFClaim :=
  let sent := pyStrip s
  if sent.length < 15 then claims
  else
    let sent_lower := pyLower sent
    match extract_trait_claim sent sent_lower char_name with
    | some c => claims ++ [c]
    | none =>
      match extract_event_claim sent sent_lower char_name with
      | some c => claims ++ [c]
      | none =>
        match extract_relationship_claim sent sent_lower char_name with
        | some c => claims ++ [c]
        | none =>
          if actionVerbs.any (fun word => pyIn word sent_lower) then
            claims ++ [{ claim_id := "action_" ++ toString claims.length,
                         claim_text := format_claim sent char_name,
                         claim_type := "event", importance := "medium",
                         event_type := some "action" }]
          else claims

/-- The single fallback claim built from the whole backstory text when no
sentence produced a claim. -/
def backstorySummaryClaim (text : String) : SFClaim :=
  { claim_id := "backstory_summary", claim_text := text.take 200,
    claim_type := "event", importance := "medium", event_type := some "general" }

/-- `SmartFallback.extract_claims_smart`: split into sentences on `[.!?;]`,
extract per-sentence claims, fall back to a single truncated-backstory claim
when nothing was produced and the text is longer than 20 characters, then
deduplicate and keep at most 12 claims. -/
def extract_claims_smart (text char_name : String) : List SFClaim :=
  let sentences := pySplitIf (fun c => c = '.' ∨ c = '!' ∨ c = '?' ∨ c = ';') text
  let claims := sentences.foldl (extractFromSentence char_name) []
  let claims :=
    if claims = [] ∧ 20 < text.length then [backstorySummaryClaim text]
    else claims
  (deduplicateClaims claims).take 12

/-! ## `smart_fallback.py` — vocabulary generation -/

/-- The stopword list of `smart_vocabulary_generation`. -/
def vocabStopwords : List String :=
  ["that", "this", "with", "from", "have", "been", "were", "being",
   "when", "where", "what", "which", "while", "there", "their", "they",
   "than", "then", "them", "these", "those", "other", "about", "after",
   "before", "would", "could", "should", "might", "must", "shall",
   "very", "just", "only", "even", "also", "some", "such", "like",
   "made", "make", "came", "come", "went", "going", "said", "told",
   "himself", "herself", "itself", "themselves", "into", "over", "under"]

/-- Maximal word-character runs of a string (flushing on every non-word
character). -/
def wordRunsAux : List Char → List Char → List (List Char)
  | [], cur => if cur = [] then [] else [cur.reverse]
  | c :: rest, cur =>
      if isWordChar c then wordRunsAux rest (c :: cur)
      else if cur = [] then wordRunsAux rest []
      else cur.reverse :: wordRunsAux rest []

/-- Python `re.findall(r"\b\w{4,}\b", s)`: the maximal word-character runs of
length at least four. -/
def wordRunsMin4 (s : String) : List String :=
  ((wordRunsAux s.data []).filter (fun run => 4 ≤ run.length)).map String.mk

/-- The generated vocabulary: positive terms, anti terms and an extraction
confidence. -/
structure GeneratedVocab where
  positive : List String
  negative : List String
  confidence : ℚ
deriving Repr, DecidableEq

/-- `SmartFallback.smart_vocabulary_generation`: type-specific seed terms,
then claim-specific significant words prepended, deduplicated and truncated.
(`list(set(negative_terms))` has unspecified order; it is modelled as
first-occurrence deduplication, which no property below depends on.) -/
def smart_vocabulary_generation (claim : SFClaim) : GeneratedVocab :=
  let claim_text := pyLower claim.claim_text
  let seed : List String × List String :=
    if claim.claim_type = "trait" ∧ claim.detected_trait ≠ none then
      match claim.detected_trait.getD "" with
      | "brave" =>
          (["brave", "courageous", "heroic", "fearless", "bold", "daring"],
           ["coward", "cowardly", "afraid", "scared", "fled", "hid"])
      | "cruel" =>
          (["cruel", "harsh", "brutal", "merciless", "ruthless"],
           ["kind", "gentle", "merciful", "compassionate"])
      | "intelligent" =>
          (["smart", "intelligent", "clever", "wise", "brilliant"],
           ["foolish", "stupid", "dumb", "ignorant"])
      | t => ([t], [])
    else if claim.claim_type = "event" ∧ claim.event_type ≠ none then
      (((eventsLexicon.lookup (claim.event_type.getD "")).getD []).take 3,
       ["never happened", "did not occur", "false"])
    else if claim.claim_type = "relationship" then
      let rel := claim.relationship_type.getD ""
      ([rel, "his " ++ rel, "her " ++ rel], ["no " ++ rel, "without " ++ rel])
    else ([], [])
  let specific_terms :=
    (wordRunsMin4 claim_text).filter (fun w => pyLower w ∉ vocabStopwords)
  { positive := (uniqFirst (specific_terms ++ seed.1)).take 15,
    negative := (uniqFirst seed.2).take 10,
    confidence := if claim.claim_type = "trait" ∨ claim.claim_type = "event" then 0.8 else 0.6 }

/-! ## `claim_decomposer.py` — the pattern-based `decompose` path -/

/-- A claim after `ClaimDecomposer._enrich_claim`. -/
structure EnrichedClaim extends SFClaim where
  search_vocabulary : List String
  anti_vocabulary : List String
  syntactic_patterns : List String
  confidence : ℚ
deriving Repr, DecidableEq

/-- `ClaimDecomposer._enrich_claim` for claims coming from the smart
fallback: `smart_vocabulary_generation` always succeeds on them (every field
it reads is present), so the legacy per-type vocabulary generators guarded by
the `except` branch are dead on this path. -/
def enrich_claim (claim : SFClaim) : EnrichedClaim :=
  let vocab := smart_vocabulary_generation claim
  { toSFClaim := claim, search_vocabulary := vocab.positive,
    anti_vocabulary := vocab.negative, syntactic_patterns := [],
    confidence := vocab.confidence }

/-- The vague-claim stoplist of `ClaimDecomposer.__init__`
(`self.vague_patterns`), matched as substrings of the lower-cased claim text. -/
def vaguePatterns : List String :=
  ["complex", "complicated", "difficult", "hard", "easy",
   "interesting", "unique", "special", "different", "normal",
   "good", "bad", "nice", "strange", "weird"]

/-- `ClaimDecomposer._filter_vague_claims`. -/
def filter_vague_claims (claims : List EnrichedClaim) : List EnrichedClaim :=
  claims.filter (fun claim =>
    ¬ vaguePatterns.any (fun vague => pyIn vague (pyLower claim.claim_text)))

/-- `MAX_CLAIMS_PER_BACKSTORY` from `config.py`. -/
def MAX_CLAIMS_PER_BACKSTORY : Nat := 15

/-- `ClaimDecomposer.decompose` along the pattern-based path (the
`SKIP_LLM_USE_FALLBACK` configuration, and equally any model failure, routes
`_extract_claims_with_llm` to `_fallback_extraction`, which calls
`SmartFallback.extract_claims_smart`): extract, enrich, drop claims with
confidence below 0.6, drop vague claims, and cap the claim count. -/
def decompose (backstory_text character_name : String) : List EnrichedClaim :=
  let raw_claims := extract_claims_smart backstory_text character_name
  let enriched_claims := (raw_claims.map enrich_claim).filter
    (fun enriched => (0.6 : ℚ) ≤ enriched.confidence)
  (filter_vague_claims enriched_claims).take MAX_CLAIMS_PER_BACKSTORY

/-! ## Helper lemmas -/

theorem mem_insertDescQ {α : Type} (f : α → ℚ) (x : α) (l : List α) (a : α) :
    a ∈ insertDescQ f x l ↔ a = x ∨ a ∈ l := by
  induction l with
  | nil => simp [insertDescQ]
  | cons b bs ih =>
      simp only [insertDescQ]
      split
      · simp [or_comm, or_assoc, or_left_comm]
      · simp [ih]
        tauto

theorem mem_sortByDescQ {α : Type} (f : α → ℚ) (l : List α) (a : α) :
    a ∈ sortByDescQ f l ↔ a ∈ l := by
  induction l with
  | nil => simp [sortByDescQ]
  | cons x xs ih => simp [sortByDescQ, mem_insertDescQ, ih]

theorem foldl_max_mem (xs : List ℚ) (a : ℚ) :
    xs.foldl max a = a ∨ xs.foldl max a ∈ xs := by
  induction xs generalizing a with
  | nil => left; rfl
  | cons x xs ih =>
      simp only [List.foldl_cons]
      rcases ih (max a x) with h | h
      · rw [h]
        rcases max_choice a x with h2 | h2
        · left; exact h2
        · right; rw [h2]; exact List.mem_cons_self x xs
      · right; exact List.mem_cons_of_mem x h

theorem le_foldl_max (xs : List ℚ) (a : ℚ) : a ≤ xs.foldl max a := by
  induction xs generalizing a with
  | nil => exact le_refl a
  | cons x xs ih => exact le_trans (le_max_left a x) (ih (max a x))

theorem mem_le_foldl_max (xs : List ℚ) (a b : ℚ) (h : b ∈ xs) : b ≤ xs.foldl max a := by
  induction xs generalizing a with
  | nil => cases h
  | cons x xs ih =>
      rcases List.mem_cons.mp h with rfl | h2
      · exact le_trans (le_max_right a b) (le_foldl_max xs (max a b))
      · exact ih (max a x) h2

theorem qmax_mem (l : List ℚ) (h : l ≠ []) : qmax l ∈ l := by
  match l with
  | [] => exact absurd rfl h
  | x :: xs =>
      rcases foldl_max_mem xs x with h2 | h2
      · rw [qmax, h2]; exact List.mem_cons_self x xs
      · rw [qmax]; exact List.mem_cons_of_mem x h2

theorem le_qmax (l : List ℚ) (a : ℚ) (h : a ∈ l) : a ≤ qmax l := by
  match l with
  | [] => cases h
  | x :: xs =>
      rcases List.mem_cons.mp h with rfl | h2
      · exact le_foldl_max xs a
      · exact mem_le_foldl_max xs x a h2

theorem foldl_pick_mem {α : Type} (f : α → ℚ) (xs : List α) (a : α) :
    xs.foldl (fun p q => if f p < f q then q else p) a = a ∨
    xs.foldl (fun p q => if f p < f q then q else p) a ∈ xs := by
  induction xs generalizing a with
  | nil => left; rfl
  | cons x xs ih =>
      simp only [List.foldl_cons]
      rcases ih (if f a < f x then x else a) with h | h
      · rw [h]
        split
        · right; exact List.mem_cons_self x xs
        · left; rfl
      · right; exact List.mem_cons_of_mem x h

theorem pyMaxBy_mem {α : Type} (f : α → ℚ) (l : List α) (x : α)
    (h : pyMaxBy f l = some x) : x ∈ l := by
  match l with
  | [] => simp [pyMaxBy] at h
  | y :: ys =>
      simp only [pyMaxBy, Option.some.injEq] at h
      rcases foldl_pick_mem f ys y with h2 | h2
      · rw [h2] at h; rw [← h]; exact List.mem_cons_self y ys
      · rw [← h]; exact List.mem_cons_of_mem y h2

theorem avg_confidence_bounds (vs : List ClaimVerification)
    (h : ∀ cv ∈ vs, 0 ≤ cv.verification.confidence ∧ cv.verification.confidence ≤ 1) :
    0 ≤ (if 0 < vs.length then
           (vs.map (fun cv => cv.verification.confidence)).sum / (vs.length : ℚ)
         else (0.5 : ℚ)) ∧
    (if 0 < vs.length then
       (vs.map (fun cv => cv.verification.confidence)).sum / (vs.length : ℚ)
     else (0.5 : ℚ)) ≤ 1 := by
  split
  · next hlen =>
      have hpos : (0 : ℚ) < (vs.length : ℚ) := by exact_mod_cast hlen
      have hsum0 : 0 ≤ (vs.map (fun cv => cv.verification.confidence)).sum := by
        apply List.sum_nonneg
        intro x hx
        rcases List.mem_map.mp hx with ⟨cv, hcv, rfl⟩
        exact (h cv hcv).1
      have hsum1 : (vs.map (fun cv => cv.verification.confidence)).sum ≤ (vs.length : ℚ) := by
        have := List.sum_le_card_nsmul (vs.map (fun cv => cv.verification.confidence)) 1 ?_
        · simpa using this
        · intro x hx
          rcases List.mem_map.mp hx with ⟨cv, hcv, rfl⟩
          exact (h cv hcv).2
      constructor
      · exact div_nonneg hsum0 (le_of_lt hpos)
      · rw [div_le_one hpos]
        exact hsum1
  · norm_num

/-! ## Claim theorems -/

/-- C10: aggregating an empty sequence of claim verifications does not raise
(the divisions by the claim count are guarded by `if total_claims > 0`) and
returns the verdict consistent (prediction 1) with confidence 0.5 through the
consistent-majority branch — zero supported claims is not fewer than zero
contradicted claims and there are no strong contradictions, so that branch
produces the rationale counting 0 of 0 supported claims. -/
theorem c10_empty_aggregation :
    aggregate_decisions [] =
      { consistent := 1, confidence := 0.5,
        rationale := "0/0 claims supported by evidence" } := by
  with_unfolding_all decide

/-- C2 counterexample: a claim whose identifier is `event_death` (the id the
pattern extractor gives every death-event claim) with an empty evidence set is
judged consistent (1) at confidence 0.5 by `_fallback_verification` — not
inconsistent (0) at confidence at least 0.6 as the claim states, because
`event_death` is on the soft-claim list. -/
theorem c2_counterexample :
    (fallback_verification ⟨"event_death"⟩ ⟨[], []⟩).consistent = 1 ∧
    ¬ ((fallback_verification ⟨"event_death"⟩ ⟨[], []⟩).consistent = 0 ∧
       (0.6 : ℚ) ≤ (fallback_verification ⟨"event_death"⟩ ⟨[], []⟩).confidence) := by
  with_unfolding_all decide

/-- C2 (amended): a claim of type event with detected sub-type death (claim
identifier starting with `event_death`) verified against an evidence set with
no supporting and no contradicting items is treated as a soft claim and yields
judgment consistent (1) with confidence exactly 0.5. -/
theorem c2_death_claim_empty_evidence (claim : ClaimInfo)
    (h : pyStartsWith claim.claim_id "event_death" = true) :
    fallback_verification claim ⟨[], []⟩ =
      { consistent := 1, confidence := 0.5,
        rationale := "Unverifiable claim with no contradicting evidence - defaulting to consistent",
        key_passages := [] } := by
  unfold fallback_verification
  simp [isSoftClaim, h]

/-- C2 witness: the amended theorem applied at the concrete `event_death`
claim id. -/
theorem c2_death_claim_empty_evidence_witness :
    pyStartsWith (ClaimInfo.mk "event_death").claim_id "event_death" = true ∧
    fallback_verification ⟨"event_death"⟩ ⟨[], []⟩ =
      { consistent := 1, confidence := 0.5,
        rationale := "Unverifiable claim with no contradicting evidence - defaulting to consistent",
        key_passages := [] } :=
  ⟨by decide, c2_death_claim_empty_evidence ⟨"event_death"⟩ (by decide)⟩

/-- C3 counterexample: with a model-based judge configured
(`SKIP_LLM_USE_FALLBACK` false), `verify_claim` answers an empty evidence set
for a relationship claim with judgment 0 (inconsistent) before consulting the
model — not judgment 1 as the claim asserts for every verification path. -/
theorem c3_counterexample :
    outcomeConsistent (verify_claim false ⟨"relationship_father"⟩ ⟨[], []⟩) = some 0 ∧
    (some 0 : Option Nat) ≠ some 1 := by
  with_unfolding_all decide

/-- C3 (amended): a relationship claim (identifier starting with
`relationship_`) with empty evidence defaults to consistent (1) at confidence
exactly 0.5 on the fallback path (`SKIP_LLM_USE_FALLBACK` set, or any model
failure routing to `_fallback_verification`); but when a model-based judge is
configured, the empty-evidence early return of `verify_claim` instead yields
judgment inconsistent (0) at confidence 0.5. -/
theorem c3_relationship_empty_evidence (claim : ClaimInfo)
    (h : pyStartsWith claim.claim_id "relationship_" = true) :
    verify_claim true claim ⟨[], []⟩ =
      .result { consistent := 1, confidence := 0.5,
                rationale := "Unverifiable claim with no contradicting evidence - defaulting to consistent",
                key_passages := [] } ∧
    verify_claim false claim ⟨[], []⟩ =
      .result { consistent := 0, confidence := 0.5,
                rationale := "No evidence found in novel for this claim",
                key_passages := [] } := by
  constructor
  · show VerifyOutcome.result (fallback_verification claim ⟨[], []⟩) = _
    unfold fallback_verification
    simp [isSoftClaim, h]
  · rfl

/-- C3 witness: the amended theorem applied at the concrete
`relationship_father` claim id. -/
theorem c3_relationship_empty_evidence_witness :
    pyStartsWith (ClaimInfo.mk "relationship_father").claim_id "relationship_" = true ∧
    (verify_claim true ⟨"relationship_father"⟩ ⟨[], []⟩ =
      .result { consistent := 1, confidence := 0.5,
                rationale := "Unverifiable claim with no contradicting evidence - defaulting to consistent",
                key_passages := [] } ∧
     verify_claim false ⟨"relationship_father"⟩ ⟨[], []⟩ =
      .result { consistent := 0, confidence := 0.5,
                rationale := "No evidence found in novel for this claim",
                key_passages := [] }) :=
  ⟨by decide, c3_relationship_empty_evidence ⟨"relationship_father"⟩ (by decide)⟩

/-- C5: the fallback heuristic computes
`net_score = support_score - contra_score * 2.5` over the top-five adjusted
scores of each side, with a weighting factor strictly greater than 1, so an
additional contradicting item of score `s > 0` moves the net score by
`2.5 * s` toward the contradicted verdict while an additional supporting item
of the same score moves it by only `s` toward the consistent verdict. -/
theorem c5_net_score_weighting :
    (1 : ℚ) < contraWeight ∧
    (∀ sup con : List EvidenceRecord,
      netScore sup con = sumTop5 sup - sumTop5 con * contraWeight) ∧
    (∀ (sup con : List EvidenceRecord) (s : ℚ), con.length < 5 → 0 < s →
      netScore sup (con ++ [⟨some s⟩]) = netScore sup con - contraWeight * s) ∧
    (∀ (sup con : List EvidenceRecord) (s : ℚ), sup.length < 5 → 0 < s →
      netScore (sup ++ [⟨some s⟩]) con = netScore sup con + s) ∧
    (∀ s : ℚ, 0 < s → s < contraWeight * s) := by
  have hsum : ∀ (l : List EvidenceRecord) (s : ℚ), l.length < 5 →
      sumTop5 (l ++ [⟨some s⟩]) = sumTop5 l + s := by
    intro l s hl
    unfold sumTop5
    rw [List.take_of_length_le (by simp; omega),
        List.take_of_length_le (by omega)]
    simp
  refine ⟨by norm_num [contraWeight], fun sup con => rfl, ?_, ?_, ?_⟩
  · intro sup con s hlen hs
    unfold netScore
    rw [hsum con s hlen]
    ring
  · intro sup con s hlen hs
    unfold netScore
    rw [hsum sup s hlen]
    ring
  · intro s hs
    have : (0 : ℚ) < 1.5 * s := by positivity
    unfold contraWeight
    linarith

/-- C5 witness: the marginal-effect clauses of the theorem applied at the
empty evidence lists and score 1. -/
theorem c5_net_score_weighting_witness :
    ([] : List EvidenceRecord).length < 5 ∧ (0 : ℚ) < 1 ∧
    netScore [] ([] ++ [⟨some 1⟩]) = netScore [] [] - contraWeight * 1 ∧
    netScore ([] ++ [⟨some 1⟩]) [] = netScore [] [] + 1 :=
  ⟨by decide, by norm_num,
   c5_net_score_weighting.2.2.1 [] [] 1 (by decide) (by norm_num),
   c5_net_score_weighting.2.2.2.1 [] [] 1 (by decide) (by norm_num)⟩

/-- Branch-1 form of the aggregator: with at least two strong contradictions,
`_aggregate_decisions` returns inconsistent with the maximum strong-contradiction
confidence. -/
theorem aggregate_decisions_two_strong (vs : List ClaimVerification)
    (h : 2 ≤ (strongContras vs).length) :
    aggregate_decisions vs =
      { consistent := 0,
        confidence := qmax ((strongContras vs).map (fun cv => cv.verification.confidence)),
        rationale := "Multiple strong contradictions (" ++ toString (strongContras vs).length
                       ++ ") found in claims" } := by
  unfold aggregate_decisions
  rw [if_pos h]

/-- C1: whenever two or more claim verifications are judged contradicted
(`consistent = 0`) with confidence strictly above 0.85, the aggregate verdict
is inconsistent (prediction 0) and its confidence is exactly the maximum
confidence among those strong contradictions (it is one of them and bounds
them all), regardless of the judgments of the remaining verifications. -/
theorem c1_strong_contradiction_override (vs : List ClaimVerification)
    (h : 2 ≤ (strongContras vs).length) :
    (aggregate_decisions vs).consistent = 0 ∧
    (aggregate_decisions vs).confidence ∈
      (strongContras vs).map (fun cv => cv.verification.confidence) ∧
    ∀ c ∈ (strongContras vs).map (fun cv => cv.verification.confidence),
      c ≤ (aggregate_decisions vs).confidence := by
  rw [aggregate_decisions_two_strong vs h]
  refine ⟨rfl, ?_, ?_⟩
  · apply qmax_mem
    intro hnil
    rw [← List.length_eq_zero] at hnil
    rw [List.length_map] at hnil
    omega
  · intro c hc
    exact le_qmax _ c hc

/-- C1 witness: two strong contradictions (confidences 0.9 and 0.95) and one
supporting verification; the aggregate is inconsistent. -/
theorem c1_strong_contradiction_override_witness :
    2 ≤ (strongContras
          [⟨⟨0, 0.9, "contra one", []⟩⟩, ⟨⟨1, 0.99, "support", []⟩⟩,
           ⟨⟨0, 0.95, "contra two", []⟩⟩]).length ∧
    ((aggregate_decisions
          [⟨⟨0, 0.9, "contra one", []⟩⟩, ⟨⟨1, 0.99, "support", []⟩⟩,
           ⟨⟨0, 0.95, "contra two", []⟩⟩]).consistent = 0 ∧
     (aggregate_decisions
          [⟨⟨0, 0.9, "contra one", []⟩⟩, ⟨⟨1, 0.99, "support", []⟩⟩,
           ⟨⟨0, 0.95, "contra two", []⟩⟩]).confidence ∈
        ((strongContras
          [⟨⟨0, 0.9, "contra one", []⟩⟩, ⟨⟨1, 0.99, "support", []⟩⟩,
           ⟨⟨0, 0.95, "contra two", []⟩⟩]).map (fun cv => cv.verification.confidence)) ∧
     ∀ c ∈ ((strongContras
          [⟨⟨0, 0.9, "contra one", []⟩⟩, ⟨⟨1, 0.99, "support", []⟩⟩,
           ⟨⟨0, 0.95, "contra two", []⟩⟩]).map (fun cv => cv.verification.confidence)),
       c ≤ (aggregate_decisions
          [⟨⟨0, 0.9, "contra one", []⟩⟩, ⟨⟨1, 0.99, "support", []⟩⟩,
           ⟨⟨0, 0.95, "contra two", []⟩⟩]).confidence) :=
  ⟨by with_unfolding_all decide,
   c1_strong_contradiction_override _ (by with_unfolding_all decide)⟩

/-- Every confidence emitted by the fallback verifier lies in `[0, 1]`. -/
theorem fallback_verification_confidence_bounds (claim : ClaimInfo) (evidence : EvidenceSet) :
    0 ≤ (fallback_verification claim evidence).confidence ∧
    (fallback_verification claim evidence).confidence ≤ 1 := by
  unfold fallback_verification
  dsimp only
  split_ifs <;> simp only []
  · constructor <;> norm_num
  · constructor <;> norm_num
  · constructor
    · rw [le_min_iff]
      constructor
      · norm_num
      · positivity
    · exact le_trans (min_le_left _ _) (by norm_num)
  · constructor
    · rw [le_min_iff]
      constructor
      · norm_num
      · positivity
    · exact le_trans (min_le_left _ _) (by norm_num)
  · constructor <;> norm_num
  · constructor <;> norm_num
  · constructor
    · rw [le_min_iff]
      constructor
      · positivity
      · norm_num
    · exact le_trans (min_le_right _ _) (by norm_num)
  · constructor
    · rw [le_min_iff]
      constructor
      · positivity
      · norm_num
    · exact le_trans (min_le_right _ _) (by norm_num)
  · constructor <;> norm_num

/-- Bounds for the majority-vote tail of the aggregator, when the
`total_confidence` argument is the actual confidence sum (as the caller passes
it). -/
theorem aggregateMajority_bounds (vs strong_contras : List ClaimVerification)
    (support_count contradiction_count : Nat)
    (h : ∀ cv ∈ vs, 0 ≤ cv.verification.confidence ∧ cv.verification.confidence ≤ 1) :
    0 ≤ (aggregateMajority vs strong_contras
           ((vs.map (fun cv => cv.verification.confidence)).sum)
           support_count contradiction_count).confidence ∧
    (aggregateMajority vs strong_contras
           ((vs.map (fun cv => cv.verification.confidence)).sum)
           support_count contradiction_count).confidence ≤ 1 ∧
    ((aggregateMajority vs strong_contras
           ((vs.map (fun cv => cv.verification.confidence)).sum)
           support_count contradiction_count).consistent = 0 ∨
     (aggregateMajority vs strong_contras
           ((vs.map (fun cv => cv.verification.confidence)).sum)
           support_count contradiction_count).consistent = 1) := by
  have havg := avg_confidence_bounds vs h
  unfold aggregateMajority
  dsimp only
  set avg := (if 0 < vs.length then
      (vs.map (fun cv => cv.verification.confidence)).sum / (vs.length : ℚ)
    else (0.5 : ℚ)) with havgdef
  split_ifs <;>
    first
      | exact ⟨havg.1, havg.2, Or.inr rfl⟩
      | exact ⟨havg.1, havg.2, Or.inl rfl⟩

/-- C6: for every sequence of claim verifications whose confidences lie in
`[0, 1]`, the aggregate verdict has confidence in `[0, 1]` and a binary
prediction; and the fallback verifier only ever emits confidences in `[0, 1]`
on any input whatsoever (its maxima and means of per-claim confidences
preserve the bounds). -/
theorem c6_confidence_and_prediction_bounds :
    (∀ vs : List ClaimVerification,
      (∀ cv ∈ vs, 0 ≤ cv.verification.confidence ∧ cv.verification.confidence ≤ 1) →
      0 ≤ (aggregate_decisions vs).confidence ∧
      (aggregate_decisions vs).confidence ≤ 1 ∧
      ((aggregate_decisions vs).consistent = 0 ∨ (aggregate_decisions vs).consistent = 1)) ∧
    (∀ (claim : ClaimInfo) (evidence : EvidenceSet),
      0 ≤ (fallback_verification claim evidence).confidence ∧
      (fallback_verification claim evidence).confidence ≤ 1) := by
  constructor
  · intro vs h
    unfold aggregate_decisions
    dsimp only
    split_ifs with h2
    · -- branch 1: maximum over the strong contradictions
      simp only []
      have hnil : (strongContras vs).map (fun cv => cv.verification.confidence) ≠ [] := by
        intro hnil
        rw [← List.length_eq_zero, List.length_map] at hnil
        omega
      have hmem := qmax_mem _ hnil
      rcases List.mem_map.mp hmem with ⟨cv, hcv, heq⟩
      have hvs : cv ∈ vs := List.mem_of_mem_filter hcv
      refine ⟨?_, ?_, by simp⟩
      · rw [← heq]; exact (h cv hvs).1
      · rw [← heq]; exact (h cv hvs).2
    · -- branches 2-5
      cases hmax : pyMaxBy (fun cv => cv.verification.confidence)
          (vs.filter (fun cv => cv.verification.consistent = 0)) with
      | none =>
          simp only []
          exact aggregateMajority_bounds vs _ _ _ h
      | some sc =>
          simp only []
          split_ifs with h3
          · have hsc : sc ∈ vs :=
              List.mem_of_mem_filter (pyMaxBy_mem _ _ sc hmax)
            exact ⟨(h sc hsc).1, (h sc hsc).2, Or.inl rfl⟩
          · exact aggregateMajority_bounds vs _ _ _ h
  · exact fallback_verification_confidence_bounds

/-- C6 witness: the aggregate bounds applied to a concrete two-verification
list with in-range confidences. -/
theorem c6_confidence_and_prediction_bounds_witness :
    (∀ cv ∈ [ClaimVerification.mk ⟨1, 0.8, "support", []⟩,
             ClaimVerification.mk ⟨0, 0.7, "contra", []⟩],
       0 ≤ cv.verification.confidence ∧ cv.verification.confidence ≤ 1) ∧
    (0 ≤ (aggregate_decisions [⟨⟨1, 0.8, "support", []⟩⟩, ⟨⟨0, 0.7, "contra", []⟩⟩]).confidence ∧
     (aggregate_decisions [⟨⟨1, 0.8, "support", []⟩⟩, ⟨⟨0, 0.7, "contra", []⟩⟩]).confidence ≤ 1 ∧
     ((aggregate_decisions [⟨⟨1, 0.8, "support", []⟩⟩, ⟨⟨0, 0.7, "contra", []⟩⟩]).consistent = 0 ∨
      (aggregate_decisions [⟨⟨1, 0.8, "support", []⟩⟩, ⟨⟨0, 0.7, "contra", []⟩⟩]).consistent = 1)) :=
  ⟨by intro cv hcv; fin_cases hcv <;> constructor <;> with_unfolding_all decide,
   c6_confidence_and_prediction_bounds.1 _
     (by intro cv hcv; fin_cases hcv <;> constructor <;> with_unfolding_all decide)⟩

/-- C4: every evidence item returned by `retrieve_evidence` — supporting,
contradicting or neutral — passes the character-mention gate (the chunk text
contains the lower-cased character name, or a name part longer than three
characters, i.e. the first-name or last-name alias), and every critical-moment
negative-evidence record comes from a chunk whose text contains the lower-cased
character name itself; so chunks not mentioning the character (or a recognized
alias) contribute no evidence regardless of vocabulary overlap. -/
theorem c4_evidence_requires_character_mention (ing : NovelIngesterState)
    (character : String) (vocab : VocabDict) (claim : CMClaim) :
    (∀ it ∈ (retrieve_evidence ing character vocab).supporting,
       charMentioned character it.text = true) ∧
    (∀ it ∈ (retrieve_evidence ing character vocab).contradicting,
       charMentioned character it.text = true) ∧
    (∀ m ∈ (retrieve_evidence ing character vocab).neutral,
       charMentioned character m.text = true) ∧
    (∀ cm ∈ find_critical_moments ing character claim,
       pyIn (pyLower character) (pyLower cm.text) = true) := by
  refine ⟨?_, ?_, ?_, ?_⟩
  · intro it hit
    unfold retrieve_evidence at hit
    dsimp only at hit
    rw [mem_sortByDescQ] at hit
    rcases List.mem_map.mp hit with ⟨m, hm, rfl⟩
    have h1 : m ∈ (search_character ing character vocab).filter
        (fun m => charMentioned character m.text) := List.mem_of_mem_filter hm
    show charMentioned character m.text = true
    simpa using List.of_mem_filter h1
  · intro it hit
    unfold retrieve_evidence at hit
    dsimp only at hit
    rw [mem_sortByDescQ] at hit
    rcases List.mem_map.mp hit with ⟨m, hm, rfl⟩
    have h1 : m ∈ (search_character ing character vocab).filter
        (fun m => charMentioned character m.text) := List.mem_of_mem_filter hm
    show charMentioned character m.text = true
    simpa using List.of_mem_filter h1
  · intro m hm
    unfold retrieve_evidence at hm
    dsimp only at hm
    rw [mem_sortByDescQ] at hm
    have h1 : m ∈ (search_character ing character vocab).filter
        (fun m => charMentioned character m.text) := List.mem_of_mem_filter hm
    simpa using List.of_mem_filter h1
  · intro cm hcm
    unfold find_critical_moments at hcm
    dsimp only at hcm
    split_ifs at hcm with htrig
    · simp at hcm
    · rcases List.mem_filterMap.mp hcm with ⟨chunk, _, heq⟩
      split_ifs at heq with h1 h2
      · rcases h1 with ⟨_, hchar⟩
        injection heq with heq2
        rw [← heq2]
        exact hchar

/-- Concrete ingester state for the weak-evidence analysis: one chunk in
which Sarah appears (twice) and which matches exactly one vocabulary term,
an anti-vocabulary term. -/
def c7Ingester : NovelIngesterState :=
  { chunks := [{ id := "ch_0", text := "Sarah was here. Sarah was terrified.",
                 start_pos := 0, end_pos := 36, type := "chapter" }],
    character_positions := [("Sarah", [0])] }

/-- Vocabulary for the weak-evidence analysis. -/
def c7Vocab : VocabDict :=
  { positive := ["brave"], negative := ["terrified"], patterns := [] }

/-- C7 counterexample: a chunk matching exactly one (distinct) vocabulary
term — an anti-vocabulary term — is returned by `search_character` with score
−2, not down-weighted to the near-zero weak-evidence value 0.5: the
down-weighting rule only applies when the net score is positive. -/
theorem c7_counterexample :
    ((search_character c7Ingester "Sarah" c7Vocab).map
       (fun m => (m.score, m.matched_terms.length))) = [(-2, 1)] ∧
    ((-2 : ℚ) = 0.5) = False := by
  with_unfolding_all decide

/-- C7 (amended): during character search, a chunk whose vocabulary score is
positive but which matched fewer than two terms is down-weighted to the weak
score 0.5 and still retained as a match (not discarded); in general every
returned match either matched at least two terms, or kept a negative score
(anti-vocabulary dominated), or carries the weak score 0.5. -/
theorem c7_weak_single_term_downweight :
    (∀ (character : String) (vocab : VocabDict) (chunk : Chunk),
      0 < (scoreChunkRaw character vocab chunk.text).1 →
      (scoreChunkRaw character vocab chunk.text).2.length < 2 →
      scoreChunk character vocab chunk =
        some { chunk_id := chunk.id, text := chunk.text, score := 0.5,
               adjusted_score := 0.5,
               matched_terms := (scoreChunkRaw character vocab chunk.text).2,
               scene_type := chunk.scene_type.getD "unknown",
               characters_in_scene := chunk.characters }) ∧
    (∀ (ing : NovelIngesterState) (character : String) (vocab : VocabDict),
      ∀ m ∈ search_character ing character vocab,
        2 ≤ m.matched_terms.length ∨ m.score < 0 ∨ m.score = 0.5) := by
  constructor
  · intro character vocab chunk h1 h2
    unfold scoreChunk
    dsimp only
    have hc : 0 < (scoreChunkRaw character vocab chunk.text).1 ∧
        (scoreChunkRaw character vocab chunk.text).2.length < 2 := ⟨h1, h2⟩
    rw [if_pos hc, if_pos (by norm_num : (0.5 : ℚ) ≠ 0)]
  · intro ing character vocab m hm
    unfold search_character at hm
    dsimp only at hm
    have hm2 := List.mem_of_mem_take hm
    rw [mem_sortByDescQ] at hm2
    rcases List.mem_filterMap.mp hm2 with ⟨i, _, heq⟩
    rcases Option.bind_eq_some.mp heq with ⟨chunk, _, hscore⟩
    unfold scoreChunk at hscore
    dsimp only at hscore
    by_cases hcond : 0 < (scoreChunkRaw character vocab chunk.text).1 ∧
        (scoreChunkRaw character vocab chunk.text).2.length < 2
    · rw [if_pos hcond, if_pos (by norm_num : (0.5 : ℚ) ≠ 0)] at hscore
      injection hscore with hscore2
      right; right
      rw [← hscore2]
    · rw [if_neg hcond] at hscore
      split_ifs at hscore with hne
      injection hscore with hscore2
      rw [← hscore2]
      dsimp only
      push_neg at hcond
      rcases lt_trichotomy (scoreChunkRaw character vocab chunk.text).1 0 with hlt | hzero | hgt
      · right; left; exact hlt
      · exact absurd hzero hne
      · left
        have := hcond hgt
        omega

/-- C7 witness: the down-weighting clause applied to a chunk matching the
single positive term `brave` — raw score 1, one matched term, final weak
score 0.5 and the chunk retained. -/
theorem c7_weak_single_term_downweight_witness :
    0 < (scoreChunkRaw "Sarah" ⟨["brave"], [], [], none⟩
          (Chunk.mk "ch_0" "Sarah was brave." 0 16 "chapter" none []).text).1 ∧
    (scoreChunkRaw "Sarah" ⟨["brave"], [], [], none⟩
          (Chunk.mk "ch_0" "Sarah was brave." 0 16 "chapter" none []).text).2.length < 2 ∧
    scoreChunk "Sarah" ⟨["brave"], [], [], none⟩
        (Chunk.mk "ch_0" "Sarah was brave." 0 16 "chapter" none []) =
      some { chunk_id := "ch_0", text := "Sarah was brave.", score := 0.5,
             adjusted_score := 0.5,
             matched_terms := (scoreChunkRaw "Sarah" ⟨["brave"], [], [], none⟩
                (Chunk.mk "ch_0" "Sarah was brave." 0 16 "chapter" none []).text).2,
             scene_type := "unknown", characters_in_scene := [] } :=
  ⟨by with_unfolding_all decide, by with_unfolding_all decide,
   c7_weak_single_term_downweight.1 "Sarah" ⟨["brave"], [], [], none⟩
     (Chunk.mk "ch_0" "Sarah was brave." 0 16 "chapter" none [])
     (by with_unfolding_all decide) (by with_unfolding_all decide)⟩

set_option maxRecDepth 8000 in
/-- C8 counterexample: scene chunking measures the 300-character minimum on
the raw segment but stores the stripped text, so a 301-character segment that
is almost all whitespace is retained with a stored text of length 2 — far
below the threshold; and fixed-size chunking applies no minimum at all,
retaining a single-word chunk of length 2. -/
theorem c8_counterexample :
    ((chunk_by_scene ["ab" ++ String.mk (List.replicate 299 (Char.ofNat 32))]).map
       (fun c => c.text)) = ["ab"] ∧
    (300 < ("ab" : String).length) = False ∧
    ((chunk_fixed_size "hi").map (fun c => c.text)) = ["hi"] ∧
    (2 < ("hi" : String).length) = False := by
  with_unfolding_all decide

/-- Membership property of the chapter-chunking loop. -/
theorem chapterChunksAux_text_length (raw : List Char) (pairs : List (Nat × Nat))
    (start total : Nat) (c : Chunk) (hc : c ∈ chapterChunksAux raw pairs start total) :
    500 < c.text.length := by
  induction pairs generalizing start with
  | nil =>
      unfold chapterChunksAux at hc
      dsimp only at hc
      split_ifs at hc with h
      · rcases List.mem_singleton.mp hc with rfl
        exact h
      · simp at hc
  | cons p rest ih =>
      unfold chapterChunksAux at hc
      dsimp only at hc
      split_ifs at hc with h
      · rcases List.mem_cons.mp hc with rfl | hc2
        · exact h
        · exact ih _ hc2
      · exact ih _ hc

/-- Membership property of the scene-chunking loop: every retained chunk comes
from a segment longer than 300 raw characters and stores its stripped text. -/
theorem sceneChunksAux_source (segs : List String) (i pos : Nat) (c : Chunk)
    (hc : c ∈ sceneChunksAux segs i pos) :
    ∃ s ∈ segs, 300 < s.length ∧ c.text = pyStrip s := by
  induction segs generalizing i pos with
  | nil => simp [sceneChunksAux] at hc
  | cons s rest ih =>
      unfold sceneChunksAux at hc
      dsimp only at hc
      split_ifs at hc with h
      · rcases List.mem_cons.mp hc with rfl | hc2
        · exact ⟨s, List.mem_cons_self s rest, h, rfl⟩
        · rcases ih _ _ hc2 with ⟨s2, hs2, hlen, heq⟩
          exact ⟨s2, List.mem_cons_of_mem s hs2, hlen, heq⟩
      · rcases ih _ _ hc with ⟨s2, hs2, hlen, heq⟩
        exact ⟨s2, List.mem_cons_of_mem s hs2, hlen, heq⟩

/-- The fixed-size loop retains one chunk per 1500-word window and discards
nothing: with sufficient fuel its output length is the number of windows. -/
theorem fixedChunksAux_length (fuel : Nat) (ws : List String) (o : Nat)
    (hfuel : ws.length ≤ fuel) :
    (fixedChunksAux fuel ws o).length = (ws.length + 1499) / 1500 := by
  induction fuel generalizing ws o with
  | zero =>
      have : ws = [] := List.length_eq_zero.mp (Nat.le_zero.mp hfuel)
      subst this
      simp [fixedChunksAux]
  | succ fuel ih =>
      match ws with
      | [] => simp [fixedChunksAux]
      | w :: rest =>
          unfold fixedChunksAux
          dsimp only
          rw [List.length_cons]
          rw [ih ((w :: rest).drop 1500) (o + 1500)
                (by rw [List.length_drop]; simp at hfuel ⊢; omega)]
          rw [List.length_drop]
          rw [List.length_cons]
          omega

/-- C8 (amended): the chapter strategy retains only chunks whose stored
(stripped) text is longer than 500 characters; the scene strategy retains only
segments whose raw length exceeds 300 characters but stores the stripped text,
which may be arbitrarily shorter; and the fixed-size strategy retains every
1500-word window with no minimum-length filter at all. -/
theorem c8_chunk_length_thresholds :
    (∀ (raw : String) (matchStarts : List Nat),
      ∀ c ∈ chunk_by_chapter raw matchStarts, 500 < c.text.length) ∧
    (∀ segs : List String, ∀ c ∈ chunk_by_scene segs,
      ∃ s ∈ segs, 300 < s.length ∧ c.text = pyStrip s) ∧
    (∀ raw : String,
      (chunk_fixed_size raw).length = ((pySplitWhitespace raw).length + 1499) / 1500) := by
  refine ⟨?_, ?_, ?_⟩
  · intro raw matchStarts c hc
    exact chapterChunksAux_text_length _ _ _ _ c hc
  · intro segs c hc
    exact sceneChunksAux_source segs 0 0 c hc
  · intro raw
    exact fixedChunksAux_length _ _ 0 (le_refl _)

set_option maxRecDepth 8000 in
/-- C9 counterexample: on a backstory that produces no sentence-level claims,
the full text does become the single `backstory_summary` fallback claim, but
the claim does not survive the downstream vagueness filter — the word
`strange` is on the vague-pattern stoplist — so `decompose` returns the empty
claim set. -/
theorem c9_counterexample :
    extract_claims_smart "Blah blah blah blah blah strange vibes." "John" =
      [backstorySummaryClaim "Blah blah blah blah blah strange vibes."] ∧
    decompose "Blah blah blah blah blah strange vibes." "John" = [] := by
  with_unfolding_all decide

set_option maxRecDepth 8000 in
/-- C9 (amended): when the pattern extractor produces exactly the fallback
backstory-summary claim (no sentence-level claims and more than 20 characters
of text), that claim always survives the confidence filter — its extraction
confidence is 0.8, above the 0.6 cutoff — but it survives the vagueness
filter only when the truncated backstory contains no vague adjective; in that
case `decompose` returns exactly the enriched fallback claim and the claim
set is non-empty.  (Texts of at most 20 characters yield no fallback claim at
all, and a vague adjective in the first 200 characters empties the final
claim set, as the counterexample shows.) -/
theorem c9_fallback_claim_survival (text char_name : String)
    (h1 : extract_claims_smart text char_name = [backstorySummaryClaim text])
    (h2 : ∀ vague ∈ vaguePatterns, pyIn vague (pyLower (text.take 200)) = false) :
    decompose text char_name = [enrich_claim (backstorySummaryClaim text)] ∧
    (enrich_claim (backstorySummaryClaim text)).confidence = 0.8 ∧
    decompose text char_name ≠ [] := by
  have hconf : (enrich_claim (backstorySummaryClaim text)).confidence = 0.8 := by
    unfold enrich_claim
    dsimp only
    unfold smart_vocabulary_generation
    dsimp only [backstorySummaryClaim]
    rw [if_pos (Or.inr rfl)]
  have hmain : decompose text char_name = [enrich_claim (backstorySummaryClaim text)] := by
    unfold decompose
    rw [h1]
    dsimp only
    rw [List.map_cons, List.map_nil]
    rw [List.filter_singleton]
    have hdec1 : decide ((0.6 : ℚ) ≤ (enrich_claim (backstorySummaryClaim text)).confidence)
        = true := by
      rw [decide_eq_true_eq, hconf]; norm_num
    rw [hdec1, cond_true]
    unfold filter_vague_claims
    rw [List.filter_singleton]
    have hany : vaguePatterns.any
        (fun vague => pyIn vague (pyLower (enrich_claim (backstorySummaryClaim text)).claim_text))
        = false := by
      rw [List.any_eq_false]
      intro vague hv
      have htext : (enrich_claim (backstorySummaryClaim text)).claim_text = text.take 200 := by
        dsimp only [enrich_claim, backstorySummaryClaim]
      rw [htext, h2 vague hv]
      exact Bool.false_ne_true
    have hdec2 : decide (¬ vaguePatterns.any
        (fun vague => pyIn vague (pyLower (enrich_claim (backstorySummaryClaim text)).claim_text))
        = true) = true := by
      rw [decide_eq_true_eq, hany]
      exact Bool.false_ne_true
    rw [hdec2, cond_true]
    rfl
  exact ⟨hmain, hconf, by rw [hmain]; exact List.cons_ne_nil _ _⟩

set_option maxRecDepth 8000 in
/-- C9 witness: a 36-character backstory with no sentence-level claims and no
vague adjectives; `decompose` returns exactly the enriched fallback claim. -/
theorem c9_fallback_claim_survival_witness :
    extract_claims_smart "Blah blah blah blah zzz qqq xyz www." "John" =
      [backstorySummaryClaim "Blah blah blah blah zzz qqq xyz www."] ∧
    (∀ vague ∈ vaguePatterns,
      pyIn vague (pyLower (("Blah blah blah blah zzz qqq xyz www." : String).take 200)) = false) ∧
    decompose "Blah blah blah blah zzz qqq xyz www." "John" =
      [enrich_claim (backstorySummaryClaim "Blah blah blah blah zzz qqq xyz www.")] :=
  ⟨by with_unfolding_all decide,
   by with_unfolding_all decide,
   (c9_fallback_claim_survival "Blah blah blah blah zzz qqq xyz www." "John"
      (by with_unfolding_all decide) (by with_unfolding_all decide)).1⟩
